import Mathlib

/-!
Verification model of the kameleon-backend request pipeline and axiom
repository.

Shallow embedding of:
* `src/lambdas/shared/middleware.ts` — the middy v5 pipeline: zod schema
  validation, request logging / correlation ids, CORS headers, error
  normalization, and the response helpers;
* `src/infrastructure/repositories/dynamo-axiom-repository.ts` (shipped as a
  section of `src/shared/di/container.ts` in this snapshot) — the
  `DynamoAxiomRepository` over a DynamoDB table with partition key `userId`,
  sort key `axiomId`, and the `default-axioms-index` GSI keyed on
  `isDefault` with sort key `sortOrder` (see `lib/stacks/database-stack.ts`);
* `src/lambdas/axioms/*.ts` — the list / get / create / update / delete
  handlers.

JavaScript values that flow through the pipeline are modelled by `Json`;
JSON numbers are modelled by `Rat` (every numeric check the schemas perform
is exact on rationals).  The DynamoDB table is modelled as a list of
records; queries return results in the order guaranteed by the key schema
(ascending `axiomId` for the main table, ascending `sortOrder` for the GSI),
realised by the stable `List.insertionSort`, which has the same stability
guarantee as the ECMAScript `Array.prototype.sort`.
-/

/-- Model of a JavaScript/JSON value as it appears in an API Gateway event
after `@middy/http-json-body-parser` has run.  An absent body or absent
parameter object is `Json.null`. -/
inductive Json where
  | null
  | bool (b : Bool)
  | num (q : Rat)
  | str (s : String)
  | arr (elems : List Json)
  | obj (fields : List (String × Json))
deriving Repr, Inhabited

/-- JavaScript truthiness of a value, as used by the guards
`options.bodySchema && event.body` in `zodValidator.before`. -/
def Json.truthy : Json → Bool
  | .null => false
  | .bool b => b
  | .num q => q != 0
  | .str s => s != ""
  | .arr _ => true
  | .obj _ => true

/-- A failure raised while processing a request.  `jsError` is a plain
JavaScript `Error`/`TypeError` (no `statusCode` field); `httpError` is an
error carrying a `statusCode`, as produced by `http-errors`. -/
inductive PipeError where
  | jsError (message : String)
  | httpError (statusCode : Nat) (message : String)
deriving Repr, DecidableEq

/-- JavaScript member access `j[k]`: reading a property of `null` throws a
`TypeError`; reading a missing property of an object (or any property of a
primitive) yields `undefined`, modelled as `none`. -/
def jsMember (j : Json) (k : String) : Except PipeError (Option Json) :=
  match j with
  | .null => .error (.jsError ("TypeError: Cannot read properties of null (reading " ++ k ++ ")"))
  | .obj fields => .ok ((fields.find? (fun p => p.1 == k)).map (·.2))
  | _ => .ok none

def Json.asStr : Json → Option String
  | .str s => some s
  | _ => none

def Json.asBool : Json → Option Bool
  | .bool b => some b
  | _ => none

/-- Extract an integer from a JSON number (the validated schemas only let
integers through). -/
def Json.asIntNum : Json → Option Int
  | .num q => if q.den == 1 then some q.num else none
  | _ => none

/-! ### Zod schema model

The handlers declare three schema shapes (`create-axiom.ts`,
`update-axiom.ts`, `list-axioms.ts` (get part) and the delete handler):
`z.string().min(a).max(b)`, `z.number().int().min(0)`, `z.boolean()`,
`.optional()`, and `z.object({...})`.  `zparse` embeds `ZodSchema.parse` for
exactly these combinators: objects collect one issue list entry per failed
check across all declared fields (zod runs every check of a `ZodString` /
`ZodNumber`, so a single field can contribute more than one issue), strip
undeclared keys, and report a missing non-optional field as a `required`
issue. -/

inductive ZIssueKind where
  | invalidType
  | required
  | tooSmall
  | tooBig
  | notInt
deriving Repr, DecidableEq

structure ZIssue where
  path : List String
  kind : ZIssueKind
deriving Repr, DecidableEq

inductive ZSchema where
  | zstring (minLen maxLen : Option Nat)
  | znumber (mustBeInt : Bool) (minVal : Option Rat)
  | zboolean
  | zoptional (inner : ZSchema)
  | zobject (fields : List (String × ZSchema))
deriving Repr

def ZSchema.isOpt : ZSchema → Bool
  | .zoptional _ => true
  | _ => false

mutual

/-- Embedding of `ZodSchema.parse`: either the parsed (stripped) value or
the list of issues of the thrown `ZodError`. -/
def zparse : ZSchema → Json → Except (List ZIssue) Json
  | .zstring mn mx, .str s =>
      let issues :=
        (match mn with
          | some m => if s.length < m then [ZIssue.mk [] .tooSmall] else []
          | none => []) ++
        (match mx with
          | some m => if s.length > m then [ZIssue.mk [] .tooBig] else []
          | none => [])
      if issues.isEmpty then .ok (.str s) else .error issues
  | .zstring _ _, _ => .error [ZIssue.mk [] .invalidType]
  | .znumber mustBeInt mn, .num q =>
      let issues :=
        (if mustBeInt && q.den != 1 then [ZIssue.mk [] .notInt] else []) ++
        (match mn with
          | some m => if q < m then [ZIssue.mk [] .tooSmall] else []
          | none => [])
      if issues.isEmpty then .ok (.num q) else .error issues
  | .znumber _ _, _ => .error [ZIssue.mk [] .invalidType]
  | .zboolean, .bool b => .ok (.bool b)
  | .zboolean, _ => .error [ZIssue.mk [] .invalidType]
  | .zoptional inner, v => zparse inner v
  | .zobject fields, .obj kvs =>
      match zparseFields fields kvs with
      | ([], outs) => .ok (.obj outs)
      | (issues, _) => .error issues
  | .zobject _, _ => .error [ZIssue.mk [] .invalidType]

/-- Validate the declared fields of a `z.object` shape against the supplied
key/value pairs, in declaration order, accumulating issues. -/
def zparseFields : List (String × ZSchema) → List (String × Json) → List ZIssue × List (String × Json)
  | [], _ => ([], [])
  | (k, sch) :: rest, kvs =>
      let tail := zparseFields rest kvs
      match (kvs.find? (fun p => p.1 == k)).map (·.2) with
      | none =>
          if sch.isOpt then tail
          else (ZIssue.mk [k] .required :: tail.1, tail.2)
      | some v =>
          match zparse sch v with
          | .ok v2 => (tail.1, (k, v2) :: tail.2)
          | .error iss => (iss.map (fun i => ZIssue.mk (k :: i.path) i.kind) ++ tail.1, tail.2)

end

/-- Body schema of `create-axiom.ts`. -/
def createBodySchema : ZSchema :=
  .zobject [
    ("name", .zstring (some 1) (some 100)),
    ("description", .zstring (some 1) (some 500)),
    ("isActive", .zoptional .zboolean),
    ("sortOrder", .zoptional (.znumber true (some 0)))]

/-- Body schema of `update-axiom.ts` (every field optional). -/
def updateBodySchema : ZSchema :=
  .zobject [
    ("name", .zoptional (.zstring (some 1) (some 100))),
    ("description", .zoptional (.zstring (some 1) (some 500))),
    ("isActive", .zoptional .zboolean),
    ("sortOrder", .zoptional (.znumber true (some 0)))]

/-- Path schema shared by the get / update / delete handlers. -/
def axiomPathSchema : ZSchema :=
  .zobject [("axiomId", .zstring (some 1) none)]

/-! ### Domain entities (`src/domain/entities/axiom.ts`) -/

structure Axiom where
  userId : String
  axiomId : String
  name : String
  description : String
  isDefault : Bool
  isActive : Bool
  sortOrder : Int
  createdAt : String
  updatedAt : String
deriving Repr, DecidableEq

structure CreateAxiomInput where
  name : String
  description : String
  isActive : Option Bool
  sortOrder : Option Int
deriving Repr, DecidableEq

structure UpdateAxiomInput where
  name : Option String
  description : Option String
  isActive : Option Bool
  sortOrder : Option Int
deriving Repr, DecidableEq

/-- The DynamoDB axioms table, as a list of records. -/
abbrev Store := List Axiom

/-- Comparison used by `list-axioms.ts`:
`(a, b) => a.sortOrder - b.sortOrder`, and the sort-key order of the
`default-axioms-index` GSI. -/
def bySortOrder (a b : Axiom) : Prop := a.sortOrder ≤ b.sortOrder

instance : DecidableRel bySortOrder :=
  fun a b => inferInstanceAs (Decidable (a.sortOrder ≤ b.sortOrder))

instance : IsTotal Axiom bySortOrder :=
  ⟨fun a b => Int.le_total a.sortOrder b.sortOrder⟩

instance : IsTrans Axiom bySortOrder :=
  ⟨fun _ _ _ h1 h2 => le_trans h1 h2⟩

/-- Sort-key order of the main table (ascending `axiomId`). -/
def byAxiomId (a b : Axiom) : Prop := a.axiomId ≤ b.axiomId

instance : DecidableRel byAxiomId :=
  fun a b => inferInstanceAs (Decidable (a.axiomId ≤ b.axiomId))

/-! ### Repository (`DynamoAxiomRepository`) -/

namespace DynamoAxiomRepository

/-- Does record `a` sit at key `(userId, axiomId)`? -/
def sameKey (a : Axiom) (userId axiomId : String) : Bool :=
  a.userId == userId && a.axiomId == axiomId

/-- `findByUserId`: `Query` on the partition key; DynamoDB returns the
items in ascending sort-key (`axiomId`) order. -/
def findByUserId (store : Store) (userId : String) : List Axiom :=
  List.insertionSort byAxiomId (store.filter (fun a => a.userId == userId))

/-- `findById`: `GetItem` point lookup, `null` when absent. -/
def findById (store : Store) (userId axiomId : String) : Option Axiom :=
  store.find? (fun a => sameKey a userId axiomId)

/-- `findDefaults`: `Query` on the `default-axioms-index` GSI, whose sort
key is `sortOrder`; ties on the GSI sort key are returned in store order
(unspecified by DynamoDB, realised here by a stable sort). -/
def findDefaults (store : Store) : List Axiom :=
  List.insertionSort bySortOrder (store.filter (fun a => a.isDefault))

/-- The `ulid()` id generator, modelled as an injective counter-indexed
encoding: the ulid library produces a fresh, monotonically increasing
identifier on every call, which the model realises by threading a counter. -/
def ulidString (counter : Nat) : String :=
  String.mk (List.replicate (counter + 1) 'u')

structure UlidGen where
  counter : Nat
deriving Repr, DecidableEq

def UlidGen.next (g : UlidGen) : String × UlidGen :=
  (ulidString g.counter, ⟨g.counter + 1⟩)

/-- `create`: builds the record with `axiomId := ulid()`, both timestamps
set to `new Date().toISOString()` (the `now` argument), the caller-facing
defaults, and `PutItem`s it (a put replaces any record at the same key). -/
def create (store : Store) (userId : String) (input : CreateAxiomInput)
    (now freshId : String) : Axiom × Store :=
  let ax : Axiom :=
    { userId := userId
      axiomId := freshId
      name := input.name
      description := input.description
      isDefault := false
      isActive := input.isActive.getD true
      sortOrder := input.sortOrder.getD 0
      createdAt := now
      updatedAt := now }
  (ax, store.filter (fun a => !(sameKey a userId freshId)) ++ [ax])

/-- Effect of the `UpdateCommand`s `SET` expression on one record: only the
fields present in the input, plus `updatedAt`, are written. -/
def applyUpdate (a : Axiom) (input : UpdateAxiomInput) (now : String) : Axiom :=
  { a with
    updatedAt := now
    name := input.name.getD a.name
    description := input.description.getD a.description
    isActive := input.isActive.getD a.isActive
    sortOrder := input.sortOrder.getD a.sortOrder }

/-- `update` on the store.  The handlers only call this after `findById`
succeeded, so the DynamoDB upsert-on-absent-key behaviour (which would
create a partial item) is not modelled. -/
def updateStore (store : Store) (userId axiomId : String)
    (input : UpdateAxiomInput) (now : String) : Store :=
  store.map (fun a => if sameKey a userId axiomId then applyUpdate a input now else a)

/-- `delete`: `DeleteItem`, idempotent at the store level. -/
def deleteStore (store : Store) (userId axiomId : String) : Store :=
  store.filter (fun a => !(sameKey a userId axiomId))

end DynamoAxiomRepository

example : Json.truthy (Json.obj []) = true := by decide
example : Json.truthy Json.null = false := by decide
example :
    zparse createBodySchema (Json.obj []) =
      .error [ZIssue.mk ["name"] .required, ZIssue.mk ["description"] .required] := rfl
/-- The JSON number `-0.5`, written with an explicit numerator and
denominator so it computes. -/
def ratNegHalf : Rat := ⟨-1, 2, by decide, by decide⟩

example :
    zparse createBodySchema
      (Json.obj [("name", .str "a"), ("description", .str "b"), ("sortOrder", .num ratNegHalf)]) =
      .error [ZIssue.mk ["sortOrder"] .notInt, ZIssue.mk ["sortOrder"] .tooSmall] := rfl

/-! ### Responses, CORS and correlation headers (`middleware.ts`) -/

/-- Response bodies produced by the handlers and the middleware, modelling
the `JSON.stringify`d payloads structurally.  Error envelopes are
`(error, message, details?)`; validation details are pairs of a
dot-joined field path and the violation kind. -/
inductive Body where
  | empty
  | errorEnv (error message : String) (details : Option (List (String × ZIssueKind)))
  | listBody (items : List Axiom) (total custom dflt : Nat)
  | axiomMsg (ax : Axiom) (message : String)
  | axiomOnly (ax : Axiom)
deriving Repr, DecidableEq

structure HttpResponse where
  statusCode : Nat
  headers : List (String × String)
  body : Body
deriving Repr, DecidableEq

/-- First-match header lookup. -/
def headerGet (hs : List (String × String)) (k : String) : Option String :=
  (hs.find? (fun p => p.1 == k)).map (·.2)

/-- Model of the JS object spread `{...headers, k: v}`: the key `k` now
maps to `v` and every other key is unchanged (placement is irrelevant to
`headerGet`, so the updated entry is put in front). -/
def headersSet (hs : List (String × String)) (k v : String) : List (String × String) :=
  (k, v) :: hs.filter (fun p => p.1 != k)

/-- The `environment === "dev"` comparison (as a flag) read from `process.env.ENVIRONMENT`. -/
def isDevEnvironment (environment : String) : Bool := environment == "dev"

/-- `getCorsHeaders()` from `middleware.ts`. -/
def getCorsHeaders (environment : String) : List (String × String) :=
  [("Access-Control-Allow-Origin",
      if isDevEnvironment environment then "http://localhost:3000" else "*"),
   ("Access-Control-Allow-Credentials", "true"),
   ("Access-Control-Allow-Headers",
      "Content-Type,Authorization,X-Amz-Date,X-Api-Key,X-Amz-Security-Token"),
   ("Access-Control-Allow-Methods", "GET,POST,PUT,PATCH,DELETE,OPTIONS")]

/-- The `defaultOrigins` computed inside `withMiddleware`. -/
def defaultCorsOrigins (environment : String) : List String :=
  if isDevEnvironment environment then
    ["http://localhost:3000", "http://localhost:3001"]
  else ["*"]

/-- Response helpers (`export const response = ...`).  `success`, `created`
and `noContent` carry no headers of their own; the 4xx/5xx helpers embed
`getCorsHeaders()`. -/
def response.success (body : Body) : HttpResponse :=
  { statusCode := 200, headers := [], body := body }

def response.created (body : Body) : HttpResponse :=
  { statusCode := 201, headers := [], body := body }

def response.noContent : HttpResponse :=
  { statusCode := 204, headers := [], body := .empty }

def response.badRequest (environment message : String) : HttpResponse :=
  { statusCode := 400, headers := getCorsHeaders environment,
    body := .errorEnv "Bad Request" message none }

/-- The 401 helper exists in `middleware.ts` but no handler or middleware
ever calls it. -/
def response.unauthorized (environment message : String) : HttpResponse :=
  { statusCode := 401, headers := getCorsHeaders environment,
    body := .errorEnv "Unauthorized" message none }

def response.forbidden (environment message : String) : HttpResponse :=
  { statusCode := 403, headers := getCorsHeaders environment,
    body := .errorEnv "Forbidden" message none }

def response.notFound (environment message : String) : HttpResponse :=
  { statusCode := 404, headers := getCorsHeaders environment,
    body := .errorEnv "Not Found" message none }

def response.internalError (environment message : String) : HttpResponse :=
  { statusCode := 500, headers := getCorsHeaders environment,
    body := .errorEnv "Internal Server Error" message none }

/-! ### The API Gateway event and identity extraction -/

/-- The parts of an `APIGatewayProxyEvent` the pipeline reads, after
`http-json-body-parser` has parsed the raw body (an absent body is
`Json.null`).  `claimsSub` is `event.requestContext.authorizer.claims.sub`
and `requestId` is `event.requestContext.requestId`. -/
structure ApiEvent where
  httpMethod : String
  path : String
  headers : List (String × String)
  requestId : Option String
  claimsSub : Option String
  body : Json
  pathParameters : Json
  queryStringParameters : Json
deriving Repr

/-- `getUserId` from `middleware.ts`: throws a plain `Error` (no
`statusCode`) when the claim is missing or falsy. -/
def getUserId (ev : ApiEvent) : Except PipeError String :=
  match ev.claimsSub with
  | some s => if s == "" then .error (.jsError "User ID not found in claims") else .ok s
  | none => .error (.jsError "User ID not found in claims")

/-! ### Middleware chain -/

structure MiddlewareOptions where
  bodySchema : Option ZSchema := none
  pathSchema : Option ZSchema := none
  querySchema : Option ZSchema := none
  corsOrigins : Option (List String) := none

/-- Turn a zod issue into one `details` entry `(path, message)`. -/
def detailOf (i : ZIssue) : String × ZIssueKind :=
  (String.intercalate "." i.path, i.kind)

/-- The 400 response built inside `zodValidator.before` — note it carries
`getCorsHeaders()` but nothing adds a correlation header to it. -/
def validationErrorResponse (environment : String) (issues : List ZIssue) : HttpResponse :=
  { statusCode := 400
    headers := getCorsHeaders environment
    body := .errorEnv "Validation Error" "Invalid request data" (some (issues.map detailOf)) }

/-- One guarded validation step of `zodValidator.before`: the schema is
applied only when it is declared AND the value is truthy
(`options.bodySchema && event.body`); otherwise the raw value passes
through untouched. -/
def validatePart (sch : Option ZSchema) (v : Json) : Except (List ZIssue) Json :=
  match sch with
  | some s => if v.truthy then zparse s v else .ok v
  | none => .ok v

/-- `zodValidator.before`: validates body, then path parameters, then query
parameters; the first `ZodError` produces the early 400 response,
short-circuiting; on success the event carries the parsed values. -/
def zodValidatorCore (environment : String) (opts : MiddlewareOptions)
    (ev : ApiEvent) : Except HttpResponse ApiEvent :=
  match validatePart opts.bodySchema ev.body with
  | .error iss => .error (validationErrorResponse environment iss)
  | .ok b =>
    match validatePart opts.pathSchema ev.pathParameters with
    | .error iss => .error (validationErrorResponse environment iss)
    | .ok p =>
      match validatePart opts.querySchema ev.queryStringParameters with
      | .error iss => .error (validationErrorResponse environment iss)
      | .ok q =>
        .ok { ev with body := b, pathParameters := p, queryStringParameters := q }

/-- JavaScript `a || b` on an optional string: the empty string is falsy. -/
def jsOrStr (o : Option String) (d : String) : String :=
  match o with
  | some s => if s == "" then d else s
  | none => d

/-- Correlation-id resolution in `requestLogger.before`: inbound
`X-Correlation-Id` header, else `x-correlation-id`, else the request id,
else a synthesized `Date.now()-random` string (the `freshCid` argument). -/
def resolveCorrelationId (ev : ApiEvent) (freshCid : String) : String :=
  jsOrStr (headerGet ev.headers "X-Correlation-Id")
    (jsOrStr (headerGet ev.headers "x-correlation-id")
      (jsOrStr ev.requestId freshCid))

/-- `requestLogger.after`: stamps `X-Correlation-Id` onto the response
(the guard `if (response && correlationId)` makes an empty correlation id
skip the stamp). -/
def stampCorrelationId (cid : String) (r : HttpResponse) : HttpResponse :=
  if cid == "" then r
  else { r with headers := headersSet r.headers "X-Correlation-Id" cid }

/-- The request `Origin` header as read by `@middy/http-cors`. -/
def incomingOrigin (ev : ApiEvent) : Option String :=
  match headerGet ev.headers "origin" with
  | some s => some s
  | none => headerGet ev.headers "Origin"

/-- Modelled from the `@middy/http-cors` v5 origin negotiation: with a
non-empty `origins` list, a request origin present in the list (or covered
by a `*` entry) is echoed back; otherwise no allow-origin header is set. -/
def corsAllowOrigin (origins : List String) (incoming : Option String) : Option String :=
  match incoming with
  | some io =>
      if origins.contains io then some io
      else if origins.contains "*" then some io
      else none
  | none => none

/-- Modelled from `@middy/http-cors` v5 `after`/`onError`: attach the
negotiated allow-origin header and, since `withMiddleware` configures
`credentials: true`, the allow-credentials header. -/
def httpCorsAttach (origins : List String) (ev : ApiEvent) (r : HttpResponse) : HttpResponse :=
  match corsAllowOrigin origins (incomingOrigin ev) with
  | some o =>
      { r with headers :=
          (headersSet (headersSet r.headers "Access-Control-Allow-Origin" o)
            "Access-Control-Allow-Credentials" "true") }
  | none => r

/-- Modelled from `@middy/http-error-handler` v5 with the options used in
`withMiddleware` (a logger, no `fallbackMessage`): an error is turned into
a response only when it carries a `statusCode` and is exposable
(`statusCode < 500`); a plain JS `Error` is left unhandled and keeps
propagating. -/
def httpErrorHandlerResponse (e : PipeError) : Option HttpResponse :=
  match e with
  | .httpError sc msg =>
      if sc < 500 then
        some { statusCode := sc, headers := [("Content-Type", "text/plain")],
               body := .errorEnv "HttpError" msg none }
      else none
  | .jsError _ => none

/-- The origins list used by the `httpCors` middleware:
`options.corsOrigins || defaultOrigins`. -/
def corsOriginsOf (environment : String) (opts : MiddlewareOptions) : List String :=
  opts.corsOrigins.getD (defaultCorsOrigins environment)

/-- The `withMiddleware` pipeline, specialised to the registered chain and
faithful to the middy v5 engine:

* before hooks run in registration order — `requestLogger.before` (resolve
  the correlation id), then `zodValidator.before`;
* a before hook that returns a response makes the engine skip the
  remaining before hooks, the handler AND the whole after phase
  (`runRequest` only runs the handler and the after middlewares when
  `request.response` is still undefined), so an early 400 is returned
  exactly as built;
* on handler success the after hooks run in reverse registration order:
  `requestLogger.after` (correlation stamp) then `httpCors.after`;
* on a handler throw the response is reset and the onError hooks run in
  reverse registration order: `httpErrorHandler`, `requestLogger.onError`
  (logging only), `httpCors.onError` (adds CORS headers when a response
  was produced); if no onError hook produced a response the error is
  rethrown and the invocation fails with no response at all.

The powertools middlewares (`captureLambdaHandler`, `injectLambdaContext`,
`logMetrics`) only touch observability state and are omitted;
`httpJsonBodyParser` is modelled as already applied to `ApiEvent.body`. -/
def runPipeline (environment : String) (opts : MiddlewareOptions)
    (handler : ApiEvent → Except PipeError HttpResponse) (freshCid : String)
    (ev : ApiEvent) : Except PipeError HttpResponse :=
  let origins := corsOriginsOf environment opts
  let cid := resolveCorrelationId ev freshCid
  match zodValidatorCore environment opts ev with
  | .error earlyResp => .ok earlyResp
  | .ok ev2 =>
    match handler ev2 with
    | .ok hresp => .ok (httpCorsAttach origins ev2 (stampCorrelationId cid hresp))
    | .error e =>
      match httpErrorHandlerResponse e with
      | some errResp => .ok (httpCorsAttach origins ev2 errResp)
      | none => .error e

/-! ### Resource handlers (`src/lambdas/axioms`) -/

/-- Reading `event.pathParameters.axiomId` (the destructuring
`const { axiomId } = event.pathParameters` throws on `null`).  The branch
where the property is present but not a string is unreachable behind the
validated path schema and is not modelled further. -/
def pathAxiomIdOf (ev : ApiEvent) : Except PipeError String := do
  let v ← jsMember ev.pathParameters "axiomId"
  match v with
  | some (.str s) => pure s
  | _ => .error (.jsError "unmodelled: axiomId absent from validated path parameters")

/-- `list-axioms.ts` list handler: merge the records of the caller with the
system defaults and sort by `sortOrder` with the (stable) JS array sort. -/
def listAxiomsHandler (store : Store) (ev : ApiEvent) : Except PipeError HttpResponse := do
  let userId ← getUserId ev
  let userAxioms := DynamoAxiomRepository.findByUserId store userId
  let defaultAxioms := DynamoAxiomRepository.findDefaults store
  let allAxioms := List.insertionSort bySortOrder (defaultAxioms ++ userAxioms)
  pure (response.success
    (.listBody allAxioms allAxioms.length userAxioms.length defaultAxioms.length))

/-- The get handler (second handler in `list-axioms.ts`). -/
def getAxiomHandler (environment : String) (store : Store) (ev : ApiEvent) :
    Except PipeError HttpResponse := do
  let userId ← getUserId ev
  let axiomId ← pathAxiomIdOf ev
  match DynamoAxiomRepository.findById store userId axiomId with
  | none => pure (response.notFound environment "Axiom not found")
  | some ax => pure (response.success (.axiomOnly ax))

/-- `create-axiom.ts` handler.  `logger.info` reads `event.body.name`
before anything else, so a `null` body throws a `TypeError` right there;
`repo.create` then reads the validated fields.  The degenerate case of a
truthy non-object body never reaches the handler (the schema rejects it)
and a falsy non-null body (empty string) is outside the modelled claims. -/
def createAxiomHandler (store : Store) (now freshId : String)
    (ev : ApiEvent) : Except PipeError (HttpResponse × Store) := do
  let userId ← getUserId ev
  let nameV ← jsMember ev.body "name"
  let descV ← jsMember ev.body "description"
  let isActiveV ← jsMember ev.body "isActive"
  let sortOrderV ← jsMember ev.body "sortOrder"
  match nameV.bind Json.asStr, descV.bind Json.asStr with
  | some nm, some ds =>
      let input : CreateAxiomInput :=
        { name := nm, description := ds,
          isActive := isActiveV.bind Json.asBool,
          sortOrder := sortOrderV.bind Json.asIntNum }
      let (ax, store2) := DynamoAxiomRepository.create store userId input now freshId
      pure (response.created (.axiomMsg ax "Axiom created successfully"), store2)
  | _, _ => .error (.jsError "unmodelled: create invoked with a non-object body")

/-- Decode `event.body` into the `UpdateAxiomInput` the repository reads
(`input.name !== undefined` etc.); reading any field of a `null` body
throws, as in `repo.update`. -/
def updateInputOfJson (j : Json) : Except PipeError UpdateAxiomInput := do
  let n ← jsMember j "name"
  let d ← jsMember j "description"
  let a ← jsMember j "isActive"
  let s ← jsMember j "sortOrder"
  pure { name := n.bind Json.asStr, description := d.bind Json.asStr,
         isActive := a.bind Json.asBool, sortOrder := s.bind Json.asIntNum }

/-- `update-axiom.ts` handler: existence-and-ownership check, default
immutability check, then the partial update (`ALL_NEW` returns the stored
updated record). -/
def updateAxiomHandler (environment : String) (store : Store) (now : String)
    (ev : ApiEvent) : Except PipeError (HttpResponse × Store) := do
  let userId ← getUserId ev
  let axiomId ← pathAxiomIdOf ev
  match DynamoAxiomRepository.findById store userId axiomId with
  | none => pure (response.notFound environment "Axiom not found", store)
  | some existing =>
    if existing.isDefault then
      pure (response.forbidden environment "Cannot update default axioms", store)
    else do
      let input ← updateInputOfJson ev.body
      let store2 := DynamoAxiomRepository.updateStore store userId axiomId input now
      pure (response.success
        (.axiomMsg (DynamoAxiomRepository.applyUpdate existing input now)
          "Axiom updated successfully"), store2)

/-- The delete handler: existence-and-ownership check, default
immutability check, then the hard delete. -/
def deleteAxiomHandler (environment : String) (store : Store) (ev : ApiEvent) :
    Except PipeError (HttpResponse × Store) := do
  let userId ← getUserId ev
  let axiomId ← pathAxiomIdOf ev
  match DynamoAxiomRepository.findById store userId axiomId with
  | none => pure (response.notFound environment "Axiom not found", store)
  | some existing =>
    if existing.isDefault then
      pure (response.forbidden environment "Cannot delete default axioms", store)
    else
      pure (response.noContent, DynamoAxiomRepository.deleteStore store userId axiomId)

/-- Middleware options per endpoint, as passed to `withMiddleware`. -/
def listOptions : MiddlewareOptions := {}

def getOptions : MiddlewareOptions := { pathSchema := some axiomPathSchema }

def createOptions : MiddlewareOptions := { bodySchema := some createBodySchema }

def updateOptions : MiddlewareOptions :=
  { pathSchema := some axiomPathSchema, bodySchema := some updateBodySchema }

def deleteOptions : MiddlewareOptions := { pathSchema := some axiomPathSchema }

/-! ### Helper lemmas -/

theorem headerGet_headersSet_self (hs : List (String × String)) (k v : String) :
    headerGet (headersSet hs k v) k = some v := by
  simp [headerGet, headersSet, List.find?]

theorem headerGet_headersSet_other (hs : List (String × String)) (k v k2 : String)
    (h : k2 ≠ k) : headerGet (headersSet hs k v) k2 = headerGet hs k2 := by
  simp only [headerGet, headersSet]
  rw [List.find?_cons_of_neg _ (by simp [Ne.symm h])]
  rw [List.find?_filter]
  have hpred : (fun a : String × String => decide ((a.1 != k) = true ∧ (a.1 == k2) = true)) =
      (fun p : String × String => p.1 == k2) := by
    funext a
    by_cases ha : a.1 = k2
    · simp [ha, h]
    · simp [ha]
  rw [hpred]

theorem findById_eq_none_iff (store : Store) (u i : String) :
    DynamoAxiomRepository.findById store u i = none ↔
      ∀ a ∈ store, ¬(a.userId = u ∧ a.axiomId = i) := by
  simp [DynamoAxiomRepository.findById, List.find?_eq_none, DynamoAxiomRepository.sameKey]

/-! ### C2 — cross-origin headers -/

/-- An allowed incoming origin (listed, or covered by a wildcard entry) is
echoed back by the modelled http-cors origin negotiation. -/
theorem corsAllowOrigin_eq_some (origins : List String) (io : String)
    (h : io ∈ origins ∨ "*" ∈ origins) : corsAllowOrigin origins (some io) = some io := by
  show (if origins.contains io = true then some io
    else if origins.contains "*" = true then some io else none) = some io
  by_cases hio : origins.contains io = true
  · rw [if_pos hio]
  · rw [if_neg hio]
    have hstar : "*" ∈ origins := by
      rcases h with h | h
      · exact absurd (by simp [List.contains, h]) hio
      · exact h
    have hc : origins.contains "*" = true := by simp [List.contains, hstar]
    rw [if_pos hc]

/-- C2 (counterexample): the claim says the allowed-origin list is
permissive in NON-production and origin-restricted in production.  The
code has it the other way around: `environment = "prod"` (non-dev) gets
the wildcard `*` both in `defaultOrigins` and in `getCorsHeaders()`, while
the dev environment gets the localhost allow-list. -/
theorem c2_cors_direction_counterexample :
    ("*" ∈ defaultCorsOrigins "prod") ∧
    ("*" ∉ defaultCorsOrigins "dev") ∧
    headerGet (getCorsHeaders "prod") "Access-Control-Allow-Origin" = some "*" ∧
    headerGet (getCorsHeaders "dev") "Access-Control-Allow-Origin" =
      some "http://localhost:3000" := by
  refine ⟨?_, ?_, ?_, ?_⟩ <;> decide

/-- C2 (amended): cross-origin headers are attached to every response the
pipeline returns — the early validation 400 and the repository-error
helpers embed `getCorsHeaders()` directly, and handler-path responses go
through the `httpCors` after/onError hook — but the allow-list direction
is inverted with respect to the claim: it is the localhost allow-list in
the dev environment and the wildcard in every other environment,
production included. -/
theorem c2_cors_headers_amended (environment : String) (opts : MiddlewareOptions)
    (handler : ApiEvent → Except PipeError HttpResponse) (freshCid : String) :
    defaultCorsOrigins environment =
      (if isDevEnvironment environment then ["http://localhost:3000", "http://localhost:3001"]
       else ["*"]) ∧
    headerGet (getCorsHeaders environment) "Access-Control-Allow-Origin" =
      some (if isDevEnvironment environment then "http://localhost:3000" else "*") ∧
    (∀ iss, (validationErrorResponse environment iss).headers = getCorsHeaders environment) ∧
    (∀ msg, (response.notFound environment msg).headers = getCorsHeaders environment) ∧
    (∀ msg, (response.forbidden environment msg).headers = getCorsHeaders environment) ∧
    (∀ ev ev2 hresp io,
      zodValidatorCore environment opts ev = .ok ev2 →
      handler ev2 = .ok hresp →
      incomingOrigin ev2 = some io →
      (io ∈ corsOriginsOf environment opts ∨ "*" ∈ corsOriginsOf environment opts) →
      ∃ r, runPipeline environment opts handler freshCid ev = .ok r ∧
        headerGet r.headers "Access-Control-Allow-Origin" = some io ∧
        headerGet r.headers "Access-Control-Allow-Credentials" = some "true") := by
  refine ⟨rfl, ?_, fun _ => rfl, fun _ => rfl, fun _ => rfl, ?_⟩
  · cases h : isDevEnvironment environment <;> simp [getCorsHeaders, headerGet, h, List.find?]
  · intro ev ev2 hresp io hv hh hio hmem
    refine ⟨httpCorsAttach (corsOriginsOf environment opts) ev2
      (stampCorrelationId (resolveCorrelationId ev freshCid) hresp), ?_, ?_, ?_⟩
    · simp [runPipeline, hv, hh]
    · simp only [httpCorsAttach, hio, corsAllowOrigin_eq_some _ _ hmem]
      rw [headerGet_headersSet_other _ _ _ _ (by decide), headerGet_headersSet_self]
    · simp only [httpCorsAttach, hio, corsAllowOrigin_eq_some _ _ hmem]
      rw [headerGet_headersSet_self]

/-- A concrete warm-path event: caller alice, a cross-origin request from
an arbitrary site, no body. -/
def c2Ev : ApiEvent :=
  { httpMethod := "GET", path := "/axioms",
    headers := [("origin", "https://app.example.com")],
    requestId := some "req-2", claimsSub := some "alice",
    body := Json.null, pathParameters := Json.null,
    queryStringParameters := Json.null }

/-- Witness for C2 at a concrete production-environment request. -/
theorem c2_cors_headers_witness :
    ∃ r, runPipeline "prod" listOptions (listAxiomsHandler []) "cid-2" c2Ev = .ok r ∧
      headerGet r.headers "Access-Control-Allow-Origin" = some "https://app.example.com" ∧
      headerGet r.headers "Access-Control-Allow-Credentials" = some "true" :=
  (c2_cors_headers_amended "prod" listOptions (listAxiomsHandler []) "cid-2").2.2.2.2.2
    c2Ev c2Ev (response.success (.listBody [] 0 0 0)) "https://app.example.com"
    rfl rfl rfl (Or.inr (by decide))

/-! ### C1 — correlation-id header -/

/-- C1 (amended): on every path where the handler produced the response,
the `requestLogger` after-hook runs and stamps `X-Correlation-Id`. -/
theorem c1_correlation_header_amended (environment : String) (opts : MiddlewareOptions)
    (handler : ApiEvent → Except PipeError HttpResponse) (freshCid : String)
    (ev ev2 : ApiEvent) (hresp : HttpResponse)
    (hv : zodValidatorCore environment opts ev = .ok ev2)
    (hh : handler ev2 = .ok hresp)
    (hc : resolveCorrelationId ev freshCid ≠ "") :
    ∃ r, runPipeline environment opts handler freshCid ev = .ok r ∧
      headerGet r.headers "X-Correlation-Id" =
        some (resolveCorrelationId ev freshCid) := by
  refine ⟨httpCorsAttach (corsOriginsOf environment opts) ev2
    (stampCorrelationId (resolveCorrelationId ev freshCid) hresp), ?_, ?_⟩
  · simp [runPipeline, hv, hh]
  · have hstamp : stampCorrelationId (resolveCorrelationId ev freshCid) hresp =
        { hresp with headers :=
            headersSet hresp.headers "X-Correlation-Id" (resolveCorrelationId ev freshCid) } := by
      unfold stampCorrelationId
      rw [if_neg (by simpa using hc)]
    rw [hstamp]
    unfold httpCorsAttach
    cases corsAllowOrigin (corsOriginsOf environment opts) (incomingOrigin ev2) with
    | none => exact headerGet_headersSet_self _ _ _
    | some o =>
      rw [headerGet_headersSet_other _ _ _ _ (by decide),
        headerGet_headersSet_other _ _ _ _ (by decide),
        headerGet_headersSet_self]

/-- The event of a create request with an invalid body (missing required
fields) that nevertheless carries an inbound correlation header. -/
def c1Ev : ApiEvent :=
  { httpMethod := "POST", path := "/axioms",
    headers := [("X-Correlation-Id", "corr-123"), ("origin", "http://localhost:3000")],
    requestId := some "req-1", claimsSub := some "alice",
    body := Json.obj [], pathParameters := Json.null,
    queryStringParameters := Json.null }

/-- C1 (counterexample): when schema validation short-circuits, the middy
engine skips the whole after phase, so the 400 response reaches the caller
without any `X-Correlation-Id` header — the claim that every response
carries the correlation header is false. -/
theorem c1_correlation_header_counterexample :
    runPipeline "dev" createOptions
        (fun e => (createAxiomHandler [] "2026-02-03T04:05:06.000Z"
          (DynamoAxiomRepository.ulidString 0) e).map (·.1)) "fresh-1" c1Ev =
      .ok (validationErrorResponse "dev"
        [ZIssue.mk ["name"] .required, ZIssue.mk ["description"] .required]) ∧
    headerGet (validationErrorResponse "dev"
        [ZIssue.mk ["name"] .required, ZIssue.mk ["description"] .required]).headers
      "X-Correlation-Id" = none := by
  exact ⟨rfl, by decide⟩

/-- A valid create event used for the C1 witness. -/
def c1OkEv : ApiEvent :=
  { httpMethod := "POST", path := "/axioms",
    headers := [("X-Correlation-Id", "corr-123")],
    requestId := some "req-1", claimsSub := some "alice",
    body := Json.obj [("name", .str "Brevity"), ("description", .str "Keep it short")],
    pathParameters := Json.null, queryStringParameters := Json.null }

/-- Witness for C1 at a concrete handler-path request. -/
theorem c1_correlation_header_witness :
    ∃ r, runPipeline "dev" listOptions (listAxiomsHandler []) "fresh-9" c1OkEv = .ok r ∧
      headerGet r.headers "X-Correlation-Id" =
        some (resolveCorrelationId c1OkEv "fresh-9") :=
  c1_correlation_header_amended "dev" listOptions (listAxiomsHandler []) "fresh-9"
    c1OkEv c1OkEv (response.success (.listBody [] 0 0 0)) rfl rfl (by decide)

/-! ### C3 — missing identity claim -/

/-- C3 (amended): when the verified-identity claim is absent, `getUserId`
throws a plain `Error`; `httpErrorHandler` (no `statusCode`, no
`fallbackMessage`) leaves it unhandled, so the pipeline propagates the
error and no response — in particular no 401 — is ever produced.  Stated
for the list endpoint, whose options declare no schemas, so the result
holds for every event without the claim. -/
theorem c3_unauthenticated_amended (environment : String) (store : Store)
    (freshCid : String) (ev : ApiEvent) (h : ev.claimsSub = none) :
    runPipeline environment listOptions (listAxiomsHandler store) freshCid ev =
      .error (.jsError "User ID not found in claims") := by
  have hval : zodValidatorCore environment listOptions ev = .ok ev := rfl
  have hhandler : listAxiomsHandler store ev = .error (.jsError "User ID not found in claims") := by
    simp [listAxiomsHandler, getUserId, h]
  simp [runPipeline, hval, hhandler, httpErrorHandlerResponse]

/-- A request whose transport context carries no claims object at all. -/
def c3Ev : ApiEvent :=
  { httpMethod := "GET", path := "/axioms", headers := [],
    requestId := some "req-3", claimsSub := none,
    body := Json.null, pathParameters := Json.null,
    queryStringParameters := Json.null }

/-- C3 (counterexample): at a concrete claim-less request the pipeline
does not return any response, let alone a 401 — the invocation fails with
the propagated error. -/
theorem c3_unauthenticated_counterexample :
    runPipeline "prod" listOptions (listAxiomsHandler []) "cid-3" c3Ev =
      .error (.jsError "User ID not found in claims") ∧
    ∀ r : HttpResponse,
      runPipeline "prod" listOptions (listAxiomsHandler []) "cid-3" c3Ev ≠ .ok r := by
  refine ⟨rfl, ?_⟩
  intro r hr
  rw [show runPipeline "prod" listOptions (listAxiomsHandler []) "cid-3" c3Ev =
    .error (.jsError "User ID not found in claims") from rfl] at hr
  cases hr

/-- Witness for the amended C3 statement at a concrete input. -/
theorem c3_unauthenticated_witness :
    runPipeline "dev" listOptions (listAxiomsHandler []) "cid-3b"
        { httpMethod := "GET", path := "/axioms", headers := [],
          requestId := none, claimsSub := none, body := Json.null,
          pathParameters := Json.null, queryStringParameters := Json.null } =
      .error (.jsError "User ID not found in claims") :=
  c3_unauthenticated_amended "dev" [] "cid-3b" _ rfl

/-! ### C4 — merged listing order -/

/-- The merged item list the list handler returns for a caller. -/
def listedItems (store : Store) (userId : String) : List Axiom :=
  List.insertionSort bySortOrder
    (DynamoAxiomRepository.findDefaults store ++ DynamoAxiomRepository.findByUserId store userId)

/-- Executable lexicographic strict order on character lists (the standard
string order, written out so it computes in the kernel). -/
def strLtB : List Char → List Char → Bool
  | [], [] => false
  | [], _ :: _ => true
  | _ :: _, [] => false
  | c :: cs, d :: ds => if c < d then true else if d < c then false else strLtB cs ds

/-- Lexicographic (non-strict) order on record ids. -/
def recordIdLeB (a b : String) : Bool := strLtB a.data b.data || a == b

/-- The ordering the claim asserts: ascending `sortOrder`, ties broken by
`recordId` (`axiomId`) ordering.  This is the claim side of the
comparison, not code from the repository. -/
def specTieLe (a b : Axiom) : Prop :=
  a.sortOrder < b.sortOrder ∨
    (a.sortOrder = b.sortOrder ∧ recordIdLeB a.axiomId b.axiomId = true)

instance : DecidableRel specTieLe :=
  fun a b => inferInstanceAs (Decidable (a.sortOrder < b.sortOrder ∨
    (a.sortOrder = b.sortOrder ∧ recordIdLeB a.axiomId b.axiomId = true)))

/-- A system default with a late `axiomId` and a user record with an early
one, tied on `sortOrder`. -/
def c4DefaultAx : Axiom :=
  { userId := "system", axiomId := "Z-01", name := "Default rule",
    description := "seeded", isDefault := true, isActive := true,
    sortOrder := 1, createdAt := "t0", updatedAt := "t0" }

def c4UserAx : Axiom :=
  { userId := "alice", axiomId := "A-01", name := "Mine",
    description := "custom", isDefault := false, isActive := true,
    sortOrder := 1, createdAt := "t1", updatedAt := "t1" }

def c4Store : Store := [c4UserAx, c4DefaultAx]

def c4Ev : ApiEvent :=
  { httpMethod := "GET", path := "/axioms", headers := [],
    requestId := some "req-4", claimsSub := some "alice",
    body := Json.null, pathParameters := Json.null,
    queryStringParameters := Json.null }

/-- C4 (counterexample): on a `sortOrder` tie the handler keeps the
concatenation order — defaults first — because the JS sort is stable and
compares only `sortOrder`; the claimed `recordId` tie-break would demand
the opposite order here. -/
theorem c4_list_order_counterexample :
    listAxiomsHandler c4Store c4Ev =
      .ok (response.success (.listBody [c4DefaultAx, c4UserAx] 2 1 1)) ∧
    ¬ List.Sorted specTieLe [c4DefaultAx, c4UserAx] ∧
    List.Sorted specTieLe [c4UserAx, c4DefaultAx] := by
  refine ⟨rfl, by decide, by decide⟩

/-- C4 (amended): the merged listing is the union of the caller records
and the defaults, sorted ascending by `sortOrder` alone; ties keep the
concatenation order (all defaults before the caller records, each group in
repository order), and with an unchanged store any request by the same
caller yields the identical response. -/
theorem c4_list_order_amended (store : Store) (ev : ApiEvent) (uid : String)
    (h : getUserId ev = .ok uid) :
    listAxiomsHandler store ev =
      .ok (response.success (.listBody (listedItems store uid)
        (listedItems store uid).length
        (DynamoAxiomRepository.findByUserId store uid).length
        (DynamoAxiomRepository.findDefaults store).length)) ∧
    List.Sorted bySortOrder (listedItems store uid) ∧
    (listedItems store uid).Perm
      (DynamoAxiomRepository.findDefaults store ++ DynamoAxiomRepository.findByUserId store uid) ∧
    (∀ ev2, getUserId ev2 = .ok uid →
      listAxiomsHandler store ev2 = listAxiomsHandler store ev) := by
  refine ⟨?_, ?_, ?_, ?_⟩
  · simp [listAxiomsHandler, h, listedItems]
  · exact List.sorted_insertionSort bySortOrder _
  · exact List.perm_insertionSort bySortOrder _
  · intro ev2 h2
    simp [listAxiomsHandler, h, h2]

/-- Witness for the amended C4 statement at the concrete tie store. -/
theorem c4_list_order_witness :
    listAxiomsHandler c4Store c4Ev =
      .ok (response.success (.listBody (listedItems c4Store "alice")
        (listedItems c4Store "alice").length
        (DynamoAxiomRepository.findByUserId c4Store "alice").length
        (DynamoAxiomRepository.findDefaults c4Store).length)) ∧
    List.Sorted bySortOrder (listedItems c4Store "alice") ∧
    (listedItems c4Store "alice").Perm
      (DynamoAxiomRepository.findDefaults c4Store ++
        DynamoAxiomRepository.findByUserId c4Store "alice") ∧
    (∀ ev2, getUserId ev2 = .ok "alice" →
      listAxiomsHandler c4Store ev2 = listAxiomsHandler c4Store c4Ev) :=
  c4_list_order_amended c4Store c4Ev "alice" rfl

/-! ### C5 — partial update frame -/

/-- C5: the `SET` expression only writes the fields present in the partial
input plus `updatedAt`; everything else — including the key, `createdAt`
and `isDefault` — keeps its stored value, and records at a different key are
untouched by the store-level update. -/
theorem c5_partial_update (a : Axiom) (input : UpdateAxiomInput) (now : String)
    (store : Store) (uid aid : String) :
    (input.name = none → (DynamoAxiomRepository.applyUpdate a input now).name = a.name) ∧
    (input.description = none →
      (DynamoAxiomRepository.applyUpdate a input now).description = a.description) ∧
    (input.isActive = none →
      (DynamoAxiomRepository.applyUpdate a input now).isActive = a.isActive) ∧
    (input.sortOrder = none →
      (DynamoAxiomRepository.applyUpdate a input now).sortOrder = a.sortOrder) ∧
    (DynamoAxiomRepository.applyUpdate a input now).updatedAt = now ∧
    (DynamoAxiomRepository.applyUpdate a input now).createdAt = a.createdAt ∧
    (DynamoAxiomRepository.applyUpdate a input now).isDefault = a.isDefault ∧
    (DynamoAxiomRepository.applyUpdate a input now).userId = a.userId ∧
    (DynamoAxiomRepository.applyUpdate a input now).axiomId = a.axiomId ∧
    (∀ nm, input.name = some nm → (DynamoAxiomRepository.applyUpdate a input now).name = nm) ∧
    (∀ so, input.sortOrder = some so →
      (DynamoAxiomRepository.applyUpdate a input now).sortOrder = so) ∧
    (∀ b ∈ store, DynamoAxiomRepository.sameKey b uid aid = false →
      b ∈ DynamoAxiomRepository.updateStore store uid aid input now) := by
  refine ⟨fun h => by simp [DynamoAxiomRepository.applyUpdate, h],
    fun h => by simp [DynamoAxiomRepository.applyUpdate, h],
    fun h => by simp [DynamoAxiomRepository.applyUpdate, h],
    fun h => by simp [DynamoAxiomRepository.applyUpdate, h],
    rfl, rfl, rfl, rfl, rfl,
    fun nm h => by simp [DynamoAxiomRepository.applyUpdate, h],
    fun so h => by simp [DynamoAxiomRepository.applyUpdate, h],
    ?_⟩
  intro b hb hk
  have hfix : (fun x => if DynamoAxiomRepository.sameKey x uid aid then
      DynamoAxiomRepository.applyUpdate x input now else x) b = b := by
    simp [hk]
  exact hfix ▸ List.mem_map_of_mem _ hb

def c5Ax : Axiom :=
  { userId := "alice", axiomId := "A-01", name := "Brevity",
    description := "Keep it short", isDefault := false, isActive := true,
    sortOrder := 1, createdAt := "t1", updatedAt := "t1" }

def c5Other : Axiom :=
  { userId := "bob", axiomId := "B-01", name := "Other",
    description := "Someone else", isDefault := false, isActive := true,
    sortOrder := 3, createdAt := "t0", updatedAt := "t0" }

/-- The partial input of the end-to-end scenario: only `sortOrder`. -/
def c5Input : UpdateAxiomInput :=
  { name := none, description := none, isActive := none, sortOrder := some 5 }

/-- Witness for C5 at a concrete record, input and store. -/
theorem c5_partial_update_witness :
    (DynamoAxiomRepository.applyUpdate c5Ax c5Input "t2").name = c5Ax.name ∧
    (DynamoAxiomRepository.applyUpdate c5Ax c5Input "t2").updatedAt = "t2" ∧
    (DynamoAxiomRepository.applyUpdate c5Ax c5Input "t2").sortOrder = 5 ∧
    c5Other ∈ DynamoAxiomRepository.updateStore [c5Ax, c5Other] "alice" "A-01" c5Input "t2" := by
  obtain ⟨h1, _, _, _, h5, _, _, _, _, _, h11, h12⟩ :=
    c5_partial_update c5Ax c5Input "t2" [c5Ax, c5Other] "alice" "A-01"
  exact ⟨h1 rfl, h5, h11 5 rfl, h12 c5Other (by decide) (by decide)⟩

/-! ### C6 — default records and update/delete -/

/-- C6 (amended): the 403 guard fires exactly when the record found under
the key owned by the caller `(callerId, axiomId)` is a default; when nothing sits
under that key — including when the referenced default record
exists under a different owner — the handlers return 404.  On both paths
no repository write happens: the store is returned unchanged. -/
theorem c6_default_immutable_amended (environment : String) (store : Store)
    (now : String) (ev : ApiEvent) (uid aid : String)
    (hu : getUserId ev = .ok uid) (hp : pathAxiomIdOf ev = .ok aid) :
    (∀ ex, DynamoAxiomRepository.findById store uid aid = some ex → ex.isDefault = true →
      updateAxiomHandler environment store now ev =
        .ok (response.forbidden environment "Cannot update default axioms", store) ∧
      deleteAxiomHandler environment store ev =
        .ok (response.forbidden environment "Cannot delete default axioms", store)) ∧
    (DynamoAxiomRepository.findById store uid aid = none →
      updateAxiomHandler environment store now ev =
        .ok (response.notFound environment "Axiom not found", store) ∧
      deleteAxiomHandler environment store ev =
        .ok (response.notFound environment "Axiom not found", store)) := by
  constructor
  · intro ex hf hd
    constructor
    · simp [updateAxiomHandler, hu, hp, hf, hd, Bind.bind, Except.bind, pure, Except.pure]
    · simp [deleteAxiomHandler, hu, hp, hf, hd, Bind.bind, Except.bind, pure, Except.pure]
  · intro hf
    constructor
    · simp [updateAxiomHandler, hu, hp, hf, Bind.bind, Except.bind, pure, Except.pure]
    · simp [deleteAxiomHandler, hu, hp, hf, Bind.bind, Except.bind, pure, Except.pure]

/-- A system-seeded default record stored under the `system` partition. -/
def c6SystemDefault : Axiom :=
  { userId := "system", axiomId := "dflt-1", name := "Default rule",
    description := "seeded", isDefault := true, isActive := true,
    sortOrder := 0, createdAt := "t0", updatedAt := "t0" }

def c6Store : Store := [c6SystemDefault]

/-- Caller alice addressing the default record id. -/
def c6Ev : ApiEvent :=
  { httpMethod := "DELETE", path := "/axioms/dflt-1", headers := [],
    requestId := some "req-6", claimsSub := some "alice",
    body := Json.obj [("sortOrder", .num 2)],
    pathParameters := Json.obj [("axiomId", .str "dflt-1")],
    queryStringParameters := Json.null }

/-- C6 (counterexample): a default record stored under the system owner is
addressed by a different caller — the claim demands 403 regardless of
caller identity, but the handlers answer 404 (the record is not under the
key of the caller).  The store is still unchanged. -/
theorem c6_default_immutable_counterexample :
    c6SystemDefault.isDefault = true ∧
    deleteAxiomHandler "dev" c6Store c6Ev =
      .ok (response.notFound "dev" "Axiom not found", c6Store) ∧
    updateAxiomHandler "dev" c6Store "t9" c6Ev =
      .ok (response.notFound "dev" "Axiom not found", c6Store) ∧
    (response.notFound "dev" "Axiom not found").statusCode = 404 := by
  exact ⟨rfl, rfl, rfl, rfl⟩

/-- Caller alice owning a default record under her own partition (the only
configuration in which the 403 guard can fire). -/
def c6OwnDefault : Axiom :=
  { userId := "alice", axiomId := "dflt-2", name := "Default rule",
    description := "seeded", isDefault := true, isActive := true,
    sortOrder := 0, createdAt := "t0", updatedAt := "t0" }

def c6OwnEv : ApiEvent :=
  { httpMethod := "PATCH", path := "/axioms/dflt-2", headers := [],
    requestId := some "req-6b", claimsSub := some "alice",
    body := Json.obj [("sortOrder", .num 2)],
    pathParameters := Json.obj [("axiomId", .str "dflt-2")],
    queryStringParameters := Json.null }

/-- Witness for the amended C6 statement: the 403 branch at a concrete
store, and the 404 branch at a concrete empty store. -/
theorem c6_default_immutable_witness :
    (updateAxiomHandler "dev" [c6OwnDefault] "t9" c6OwnEv =
      .ok (response.forbidden "dev" "Cannot update default axioms", [c6OwnDefault]) ∧
     deleteAxiomHandler "dev" [c6OwnDefault] c6OwnEv =
      .ok (response.forbidden "dev" "Cannot delete default axioms", [c6OwnDefault])) ∧
    (updateAxiomHandler "dev" [] "t9" c6OwnEv =
      .ok (response.notFound "dev" "Axiom not found", []) ∧
     deleteAxiomHandler "dev" [] c6OwnEv =
      .ok (response.notFound "dev" "Axiom not found", [])) :=
  ⟨(c6_default_immutable_amended "dev" [c6OwnDefault] "t9" c6OwnEv "alice" "dflt-2"
      rfl rfl).1 c6OwnDefault rfl rfl,
   (c6_default_immutable_amended "dev" [] "t9" c6OwnEv "alice" "dflt-2"
      rfl rfl).2 rfl⟩

/-! ### C7 — create -/

/-- C7: for every create call the returned record has `isDefault = false`,
`isActive` defaulting to true and `sortOrder` to 0 when omitted, equal
`createdAt`/`updatedAt` timestamps and `axiomId` equal to the freshly
generated ulid; ids generated at distinct generator states are distinct,
and each call advances the generator, so repeated calls never reuse an id. -/
theorem c7_create_defaults (store : Store) (uid : String) (input : CreateAxiomInput)
    (now freshId : String) (g : DynamoAxiomRepository.UlidGen) (m n : Nat) (hmn : m ≠ n) :
    (DynamoAxiomRepository.create store uid input now freshId).1.isDefault = false ∧
    (input.isActive = none →
      (DynamoAxiomRepository.create store uid input now freshId).1.isActive = true) ∧
    (input.sortOrder = none →
      (DynamoAxiomRepository.create store uid input now freshId).1.sortOrder = 0) ∧
    (DynamoAxiomRepository.create store uid input now freshId).1.createdAt =
      (DynamoAxiomRepository.create store uid input now freshId).1.updatedAt ∧
    (DynamoAxiomRepository.create store uid input now freshId).1.axiomId = freshId ∧
    (DynamoAxiomRepository.create store uid input now freshId).1.userId = uid ∧
    DynamoAxiomRepository.ulidString m ≠ DynamoAxiomRepository.ulidString n ∧
    (DynamoAxiomRepository.UlidGen.next g).2.counter = g.counter + 1 ∧
    (DynamoAxiomRepository.UlidGen.next g).1 = DynamoAxiomRepository.ulidString g.counter := by
  refine ⟨rfl, fun h => by simp [DynamoAxiomRepository.create, h],
    fun h => by simp [DynamoAxiomRepository.create, h], rfl, rfl, rfl, ?_, rfl, rfl⟩
  intro h
  apply hmn
  have hdata : List.replicate (m + 1) 'u' = List.replicate (n + 1) 'u' :=
    congrArg String.data h
  have hlen := congrArg List.length hdata
  simpa using hlen

/-- Witness for C7 at a concrete create call (isActive and sortOrder both
omitted, two consecutive generator states). -/
theorem c7_create_defaults_witness :
    (DynamoAxiomRepository.create [] "alice"
      { name := "Brevity", description := "Keep it short",
        isActive := none, sortOrder := none }
      "t1" (DynamoAxiomRepository.ulidString 0)).1.isDefault = false ∧
    (DynamoAxiomRepository.create [] "alice"
      { name := "Brevity", description := "Keep it short",
        isActive := none, sortOrder := none }
      "t1" (DynamoAxiomRepository.ulidString 0)).1.isActive = true ∧
    (DynamoAxiomRepository.create [] "alice"
      { name := "Brevity", description := "Keep it short",
        isActive := none, sortOrder := none }
      "t1" (DynamoAxiomRepository.ulidString 0)).1.sortOrder = 0 ∧
    DynamoAxiomRepository.ulidString 0 ≠ DynamoAxiomRepository.ulidString 1 := by
  obtain ⟨h1, h2, h3, _, _, _, h7, _, _⟩ :=
    c7_create_defaults [] "alice"
      { name := "Brevity", description := "Keep it short",
        isActive := none, sortOrder := none }
      "t1" (DynamoAxiomRepository.ulidString 0) ⟨0⟩ 0 1 (by decide)
  exact ⟨h1, h2 rfl, h3 rfl, h7⟩

/-! ### C9 — generic 404 on get -/

/-- C9: the get handler answers with the identical 404 response whether
the referenced record is absent from the store altogether (`s1`, which may
simply not contain the id) or present under a different owner (`s2` may
contain records with the requested `axiomId` as long as none belongs to
the caller).  Status and body reveal nothing about which case occurred. -/
theorem c9_generic_not_found (environment : String) (s1 s2 : Store) (ev : ApiEvent)
    (uid aid : String)
    (hu : getUserId ev = .ok uid) (hp : pathAxiomIdOf ev = .ok aid)
    (h1 : ∀ a ∈ s1, ¬(a.userId = uid ∧ a.axiomId = aid))
    (h2 : ∀ a ∈ s2, ¬(a.userId = uid ∧ a.axiomId = aid)) :
    getAxiomHandler environment s1 ev = getAxiomHandler environment s2 ev ∧
    getAxiomHandler environment s1 ev =
      .ok (response.notFound environment "Axiom not found") := by
  have hf1 : DynamoAxiomRepository.findById s1 uid aid = none :=
    (findById_eq_none_iff s1 uid aid).mpr h1
  have hf2 : DynamoAxiomRepository.findById s2 uid aid = none :=
    (findById_eq_none_iff s2 uid aid).mpr h2
  have e1 : getAxiomHandler environment s1 ev =
      .ok (response.notFound environment "Axiom not found") := by
    simp [getAxiomHandler, hu, hp, hf1, Bind.bind, Except.bind, pure, Except.pure]
  have e2 : getAxiomHandler environment s2 ev =
      .ok (response.notFound environment "Axiom not found") := by
    simp [getAxiomHandler, hu, hp, hf2, Bind.bind, Except.bind, pure, Except.pure]
  exact ⟨e1.trans e2.symm, e1⟩

/-- Bob owns a record with the very id alice asks for. -/
def c9BobAx : Axiom :=
  { userId := "bob", axiomId := "X-77", name := "Bobs rule",
    description := "private", isDefault := false, isActive := true,
    sortOrder := 2, createdAt := "t0", updatedAt := "t0" }

def c9Ev : ApiEvent :=
  { httpMethod := "GET", path := "/axioms/X-77", headers := [],
    requestId := some "req-9", claimsSub := some "alice",
    body := Json.null,
    pathParameters := Json.obj [("axiomId", .str "X-77")],
    queryStringParameters := Json.null }

/-- Witness for C9: the empty store versus a store holding the id under a
different owner produce the identical generic 404. -/
theorem c9_generic_not_found_witness :
    getAxiomHandler "dev" [] c9Ev = getAxiomHandler "dev" [c9BobAx] c9Ev ∧
    getAxiomHandler "dev" [] c9Ev =
      .ok (response.notFound "dev" "Axiom not found") :=
  c9_generic_not_found "dev" [] [c9BobAx] c9Ev "alice" "X-77" rfl rfl
    (by intro a ha; cases ha)
    (by
      intro a ha h
      rcases List.mem_singleton.mp ha with rfl
      exact absurd h.1 (by decide))

/-! ### C10 — absent body skips validation -/

/-- C10: a create request whose body is absent (`null`) sails through the
validator untouched — the guard `options.bodySchema && event.body` is
falsy, so no 400 is produced — and the handler is invoked with the raw
`null` body; its very first read (`event.body.name` in the log statement)
throws a `TypeError`, which nothing maps to a response, so the invocation
fails with an unhandled fault instead of a validation error. -/
theorem c10_null_body_skips_validation (environment : String) (store : Store)
    (now freshId freshCid : String) (ev : ApiEvent) (sub : String)
    (hsub : ev.claimsSub = some sub) (hne : sub ≠ "") (hbody : ev.body = Json.null) :
    zodValidatorCore environment createOptions ev = .ok ev ∧
    runPipeline environment createOptions
        (fun e => (createAxiomHandler store now freshId e).map (·.1)) freshCid ev =
      .error (.jsError "TypeError: Cannot read properties of null (reading name)") := by
  have hval : zodValidatorCore environment createOptions ev = .ok ev := by
    simp [zodValidatorCore, validatePart, createOptions, hbody, Json.truthy]
    rw [← hbody]
  have hh : (createAxiomHandler store now freshId ev).map (·.1) =
      .error (.jsError "TypeError: Cannot read properties of null (reading name)") := by
    simp [createAxiomHandler, getUserId, hsub, hne, hbody, jsMember,
      Bind.bind, Except.bind, Except.map]
  refine ⟨hval, ?_⟩
  simp [runPipeline, hval, hh, httpErrorHandlerResponse]

/-- A create request with no body at all. -/
def c10Ev : ApiEvent :=
  { httpMethod := "POST", path := "/axioms", headers := [],
    requestId := some "req-10", claimsSub := some "alice",
    body := Json.null, pathParameters := Json.null,
    queryStringParameters := Json.null }

/-- Witness for C10 at the concrete body-less create request. -/
theorem c10_null_body_skips_validation_witness :
    zodValidatorCore "dev" createOptions c10Ev = .ok c10Ev ∧
    runPipeline "dev" createOptions
        (fun e => (createAxiomHandler [] "t1" (DynamoAxiomRepository.ulidString 0) e).map (·.1))
        "cid-10" c10Ev =
      .error (.jsError "TypeError: Cannot read properties of null (reading name)") :=
  c10_null_body_skips_validation "dev" [] "t1" (DynamoAxiomRepository.ulidString 0)
    "cid-10" c10Ev "alice" rfl (by decide) rfl

/-! ### C8 — validation short-circuit -/

/-- C8 (amended): whenever a declared schema is actually applied (the
value is present/truthy) and fails, the pipeline returns the 400
validation response — with one `details` entry per violation, a single
field possibly contributing several — and the handler is never invoked:
the result is the same for every handler.  Body, path and query are
checked in that order and the first failure wins. -/
theorem c8_validation_shortcircuit_amended (environment : String)
    (opts : MiddlewareOptions) (freshCid : String) (ev : ApiEvent) :
    (∀ (handler : ApiEvent → Except PipeError HttpResponse) iss,
      validatePart opts.bodySchema ev.body = .error iss →
      runPipeline environment opts handler freshCid ev =
        .ok (validationErrorResponse environment iss)) ∧
    (∀ (handler : ApiEvent → Except PipeError HttpResponse) b iss,
      validatePart opts.bodySchema ev.body = .ok b →
      validatePart opts.pathSchema ev.pathParameters = .error iss →
      runPipeline environment opts handler freshCid ev =
        .ok (validationErrorResponse environment iss)) ∧
    (∀ (handler : ApiEvent → Except PipeError HttpResponse) b p iss,
      validatePart opts.bodySchema ev.body = .ok b →
      validatePart opts.pathSchema ev.pathParameters = .ok p →
      validatePart opts.querySchema ev.queryStringParameters = .error iss →
      runPipeline environment opts handler freshCid ev =
        .ok (validationErrorResponse environment iss)) ∧
    (∀ iss, (validationErrorResponse environment iss).statusCode = 400 ∧
      (validationErrorResponse environment iss).body =
        .errorEnv "Validation Error" "Invalid request data" (some (iss.map detailOf))) := by
  refine ⟨?_, ?_, ?_, fun iss => ⟨rfl, rfl⟩⟩
  · intro handler iss hbe
    simp [runPipeline, zodValidatorCore, hbe]
  · intro handler b iss hb hpe
    simp [runPipeline, zodValidatorCore, hb, hpe]
  · intro handler b p iss hb hp hqe
    simp [runPipeline, zodValidatorCore, hb, hp, hqe]

/-- The create endpoint handler as wrapped into the pipeline (empty warm
store, fixed clock and id). -/
def c8Handler : ApiEvent → Except PipeError HttpResponse :=
  fun e => (createAxiomHandler [] "t8" (DynamoAxiomRepository.ulidString 0) e).map (·.1)

/-- Create request with an absent body. -/
def c8NullEv : ApiEvent :=
  { httpMethod := "POST", path := "/axioms", headers := [],
    requestId := some "req-8", claimsSub := some "alice",
    body := Json.null, pathParameters := Json.null,
    queryStringParameters := Json.null }

/-- Create request whose only invalid field violates two constraints at
once (`sortOrder = -0.5` fails both `.int()` and `.min(0)`). -/
def c8FracEv : ApiEvent :=
  { httpMethod := "POST", path := "/axioms", headers := [],
    requestId := some "req-8f", claimsSub := some "alice",
    body := Json.obj [("name", .str "a"), ("description", .str "b"),
      ("sortOrder", .num ratNegHalf)],
    pathParameters := Json.null, queryStringParameters := Json.null }

/-- C8 (counterexample): two concrete refutations of the claim as stated.
A create request with an absent body violates the declared body schema
(every required field is missing), yet no 400 is returned and the handler
IS invoked — the pipeline ends in the `TypeError` thrown by the handler instead.  And
a request whose single field `sortOrder = -0.5` violates two constraints
produces two `details` entries for that one field, so the 400 does not
carry one entry per violated field. -/
theorem c8_validation_shortcircuit_counterexample :
    runPipeline "dev" createOptions c8Handler "cid-8" c8NullEv =
      .error (.jsError "TypeError: Cannot read properties of null (reading name)") ∧
    (∀ r : HttpResponse,
      runPipeline "dev" createOptions c8Handler "cid-8" c8NullEv ≠ .ok r) ∧
    runPipeline "dev" createOptions c8Handler "cid-8" c8FracEv =
      .ok (validationErrorResponse "dev"
        [ZIssue.mk ["sortOrder"] .notInt, ZIssue.mk ["sortOrder"] .tooSmall]) ∧
    (validationErrorResponse "dev"
        [ZIssue.mk ["sortOrder"] .notInt, ZIssue.mk ["sortOrder"] .tooSmall]).body =
      .errorEnv "Validation Error" "Invalid request data"
        (some [("sortOrder", .notInt), ("sortOrder", .tooSmall)]) := by
  refine ⟨rfl, ?_, rfl, rfl⟩
  intro r hr
  rw [show runPipeline "dev" createOptions c8Handler "cid-8" c8NullEv =
    .error (.jsError "TypeError: Cannot read properties of null (reading name)") from rfl] at hr
  cases hr

/-- Witness for the amended C8 statement at the concrete invalid-body
request, instantiated at the create handler. -/
theorem c8_validation_shortcircuit_witness :
    runPipeline "dev" createOptions c8Handler "cid-8w" c8FracEv =
      .ok (validationErrorResponse "dev"
        [ZIssue.mk ["sortOrder"] .notInt, ZIssue.mk ["sortOrder"] .tooSmall]) :=
  (c8_validation_shortcircuit_amended "dev" createOptions "cid-8w" c8FracEv).1
    c8Handler _ rfl
